import Mathlib

/-!
Verification of the token-refresh and request-coordination layer of the
tourism-fe repository, shallowly embedded from
`src/core/auth/tokenRefresh.js` and `src/core/api/index.js`.

The JavaScript runs on a single-threaded cooperative event loop: every
synchronous block between two `await` points is atomic.  Each method of the
`TokenRefreshManager` class is therefore modelled as a pure function from the
manager's state to a new state plus a list of promise-settlement effects
(which promise was resolved/rejected and with what value).  Promises are
identified by the `Nat` at which they were allocated (`nextId`).
-/

/-! ## String helpers (JS `String.prototype.includes` on lowercased text) -/

/-- Is `p` a prefix of the character list? -/
def chPrefix : List Char → List Char → Bool
  | [], _ => true
  | _ :: _, [] => false
  | p :: ps, c :: cs => p == c && chPrefix ps cs

/-- Does `pat` occur as a contiguous run inside the character list? -/
def chInfix (pat : List Char) : List Char → Bool
  | [] => chPrefix pat []
  | c :: cs => chPrefix pat (c :: cs) || chInfix pat cs

/-- JS `s.includes(pat)`: substring test. -/
def strIncludes (s pat : String) : Bool := chInfix pat.toList s.toList

/-! ## Axios error shape

Only the parts the source reads: `error.message`, `error.response.status`,
`error.response.data.error`, `error.response.data.message`.  `Option` models
JS `undefined` links that the source guards with optional chaining. -/

structure RespData where
  error : Option String
  message : Option String
deriving DecidableEq

structure ErrResp where
  status : Int
  data : Option RespData
deriving DecidableEq

structure JsError where
  message : String
  response : Option ErrResp
deriving DecidableEq

/-- JS `String.prototype.toLowerCase` on one character (the strings compared
here are ASCII). -/
def toLowerCh (c : Char) : Char :=
  if 'A' ≤ c ∧ c ≤ 'Z' then Char.ofNat (c.toNat + 32) else c

/-- JS `s.toLowerCase()`. -/
def strToLower (s : String) : String := String.mk (s.toList.map toLowerCh)

/-- Optional-chained `o?.toLowerCase().includes(pat)`, false when the chain
hits `undefined`. -/
def optLowerIncludes (o : Option String) (pat : String) : Bool :=
  match o with
  | some s => strIncludes (strToLower s) pat
  | none => false

/-- Field `error?.response?.data?.error` of the axios error. -/
def dataError (e : JsError) : Option String :=
  match e.response with
  | some r =>
    match r.data with
    | some d => d.error
    | none => none
  | none => none

/-- Field `error?.response?.data?.message` of the axios error. -/
def dataMessage (e : JsError) : Option String :=
  match e.response with
  | some r =>
    match r.data with
    | some d => d.message
    | none => none
  | none => none

/-- JS `error?.response?.status === 401`. -/
def statusIs401 (e : JsError) : Bool :=
  match e.response with
  | some r => r.status == 401
  | none => false

/-- Embeds `isTokenExpiredError` (tokenRefresh.js lines 294-302): a 401 whose
`data.error` or `data.message`, lowercased, contains "expired" or "invalid". -/
def isTokenExpiredError (e : JsError) : Bool :=
  statusIs401 e &&
    (optLowerIncludes (dataError e) "expired" ||
     optLowerIncludes (dataError e) "invalid" ||
     optLowerIncludes (dataMessage e) "expired" ||
     optLowerIncludes (dataMessage e) "invalid")

/-! ## Request configs and promise-settlement effects -/

/-- The parts of an axios request config the refresh layer touches:
`config.url`, `config.headers.Authorization`, and the `_retry` flag. -/
structure ReqConfig where
  url : Option String
  authHeader : Option String
  retry : Bool
deriving DecidableEq

/-- Values a settled promise can carry in this layer. -/
inductive RVal where
  | token (t : String)
  | cfg (c : ReqConfig)
deriving DecidableEq

/-- A promise-settlement effect: promise `pid` was resolved or rejected. -/
inductive Eff where
  | resolve (pid : Nat) (v : RVal)
  | reject (pid : Nat) (e : JsError)
deriving DecidableEq

/-! ## TokenRefreshManager state -/

/-- Mutable fields of the `TokenRefreshManager` class.  `refreshResolve` and
`refreshReject` mirror `_refreshResolve` / `_refreshReject`: when present they
hold the id of the promise they settle.  `refreshTimer` holds the delay (ms)
of the armed `setTimeout` whose callback calls `triggerRefresh()`, or `none`.
`nextId` supplies fresh promise ids. -/
structure MgrState where
  isRefreshing : Bool
  refreshPromise : Option Nat
  refreshResolve : Option Nat
  refreshReject : Option Nat
  failedQueue : List (Nat × ReqConfig)
  refreshTimer : Option Int
  nextId : Nat
deriving DecidableEq

/-- Constructor state (tokenRefresh.js lines 18-32). -/
def mgrInit : MgrState :=
  { isRefreshing := false, refreshPromise := none, refreshResolve := none,
    refreshReject := none, failedQueue := [], refreshTimer := none, nextId := 0 }

/-- Constant `TOKEN_EXPIRY_MS` = 15 minutes. -/
def TOKEN_EXPIRY_MS : Int := 15 * 60 * 1000

/-- Constant `REFRESH_BEFORE_EXPIRY_MS` = 2 minutes. -/
def REFRESH_BEFORE_EXPIRY_MS : Int := 2 * 60 * 1000

/-- Embeds `scheduleRefresh(token, expiresIn = null)` (lines 41-68).
`clearTimeout` first; a falsy token (modelled as `""`) schedules nothing;
`expiresIn` is falsy when `none` or `some 0` (JS `expiresIn ? ... : ...`);
the timer is armed only when `refreshIn` is at least 30000 ms. -/
def scheduleRefresh (token : String) (expiresIn : Option Int) (st : MgrState) :
    MgrState :=
  let st := { st with refreshTimer := none }
  if token = "" then st
  else
    let expiryMs : Int :=
      match expiresIn with
      | some s => if s ≠ 0 then s * 1000 else TOKEN_EXPIRY_MS
      | none => TOKEN_EXPIRY_MS
    let refreshIn := expiryMs - REFRESH_BEFORE_EXPIRY_MS
    if refreshIn ≤ 0 ∨ refreshIn < 30000 then st
    else { st with refreshTimer := some refreshIn }

/-- Embeds `triggerRefresh()` (lines 87-105): if `isRefreshing &&
refreshPromise`, return the existing promise unchanged; otherwise flip to
refreshing and allocate a fresh shared promise (with resolve/reject handles).
Returns the promise id handed to the caller. -/
def triggerRefresh (st : MgrState) : MgrState × Nat :=
  match st.isRefreshing, st.refreshPromise with
  | true, some pid => (st, pid)
  | _, _ =>
    let pid := st.nextId
    ({ st with isRefreshing := true, refreshPromise := some pid,
               refreshResolve := some pid, refreshReject := some pid,
               nextId := pid + 1 }, pid)

/-- Embeds `processQueue(error, token = null)` (lines 186-208): with an error,
reject every queued promise with it; otherwise resolve each with its config,
whose Authorization header is rewritten when a truthy token is given.  The
queue is cleared. -/
def processQueue (error : Option JsError) (token : Option String)
    (st : MgrState) : MgrState × List Eff :=
  let effs := st.failedQueue.map fun pc =>
    match error with
    | some e => Eff.reject pc.1 e
    | none =>
      let c :=
        match token with
        | some t => if t ≠ "" then { pc.2 with authHeader := some ("Bearer " ++ t) } else pc.2
        | none => pc.2
      Eff.resolve pc.1 (RVal.cfg c)
  ({ st with failedQueue := [] }, effs)

/-- Embeds `onRefreshSuccess(newToken)` (lines 113-133): clear the refreshing
flag, resolve the shared promise (if its handle is set) with the new token,
drain the queue with the new token, null the promise fields, and call
`scheduleRefresh(newToken)`. -/
def onRefreshSuccess (newToken : String) (st : MgrState) : MgrState × List Eff :=
  let st := { st with isRefreshing := false }
  let resEffs :=
    match st.refreshResolve with
    | some pid => [Eff.resolve pid (RVal.token newToken)]
    | none => []
  let (st, qEffs) := processQueue none (some newToken) st
  let st := { st with refreshPromise := none, refreshResolve := none,
                      refreshReject := none }
  let st := scheduleRefresh newToken none st
  (st, resEffs ++ qEffs)

/-- Embeds `onRefreshFailure(error)` (lines 141-159): clear the refreshing
flag, reject the shared promise (if its handle is set) with the error, reject
the whole queue with it, null the promise fields, and clear the timer. -/
def onRefreshFailure (e : JsError) (st : MgrState) : MgrState × List Eff :=
  let st := { st with isRefreshing := false }
  let rejEffs :=
    match st.refreshReject with
    | some pid => [Eff.reject pid e]
    | none => []
  let (st, qEffs) := processQueue (some e) none st
  let st := { st with refreshPromise := none, refreshResolve := none,
                      refreshReject := none, refreshTimer := none }
  (st, rejEffs ++ qEffs)

/-- Embeds `addToQueue(config)` (lines 168-178): allocate a pending promise,
push `(promise, config)` onto `failedQueue`, and return the promise id the
caller awaits. -/
def addToQueue (cfg : ReqConfig) (st : MgrState) : MgrState × Nat :=
  let pid := st.nextId
  ({ st with failedQueue := st.failedQueue ++ [(pid, cfg)], nextId := pid + 1 },
   pid)

/-- The error `new Error("Logout - clearing request queue")` used by `reset`. -/
def logoutQueueError : JsError :=
  { message := "Logout - clearing request queue", response := none }

/-- Embeds `reset()` (lines 227-241): clear timer, flags and promise fields
(the shared promise handle is nulled, not rejected), then reject every queued
request with the logout error and clear the queue. -/
def reset (st : MgrState) : MgrState × List Eff :=
  let st := { st with refreshTimer := none, isRefreshing := false,
                      refreshPromise := none, refreshResolve := none,
                      refreshReject := none }
  let effs := st.failedQueue.map fun pc => Eff.reject pc.1 logoutQueueError
  ({ st with failedQueue := [] }, effs)

/-! ## Operation sequences and reachability -/

/-- One public operation on the manager singleton. -/
inductive Op where
  | schedule (token : String) (expiresIn : Option Int)
  | trigger
  | success (tok : String)
  | failure (e : JsError)
  | enqueue (cfg : ReqConfig)
  | doReset

/-- State transition of one operation (settlement effects dropped). -/
def applyOp (op : Op) (st : MgrState) : MgrState :=
  match op with
  | .schedule t ei => scheduleRefresh t ei st
  | .trigger => (triggerRefresh st).1
  | .success t => (onRefreshSuccess t st).1
  | .failure e => (onRefreshFailure e st).1
  | .enqueue c => (addToQueue c st).1
  | .doReset => (reset st).1

/-- States reachable from the freshly constructed manager by any sequence of
operations of the single-threaded cooperative model. -/
inductive Reachable : MgrState → Prop where
  | init : Reachable mgrInit
  | step {st : MgrState} (op : Op) : Reachable st → Reachable (applyOp op st)

example : strIncludes "Invalid Token" "val" = true := by decide
example : isTokenExpiredError { message := "m", response := none } = false := by decide
example : (triggerRefresh mgrInit).1.isRefreshing = true := by decide

/-! ## The 401 response interceptor (core/api/index.js lines 129-236)

Each branch of the interceptor's synchronous decision is one constructor.
The `loggedOut` flag records whether `useAuthStore.getState().logout(...)`
was invoked (the source skips it when already on the login page). -/

inductive Decision where
  | authTerminal (loggedOut : Bool)
  | refreshPath
  | notExpiredTerminal (loggedOut : Bool)
  | passThrough
deriving DecidableEq

/-- JS `originalRequest.url?.includes(pat)`; `undefined` url yields false. -/
def urlIncludes (u : Option String) (pat : String) : Bool :=
  match u with
  | some s => strIncludes s pat
  | none => false

/-- Embeds the 401 classification of the response interceptor (lines
129-236): non-401 responses and response-less errors pass through; on a 401,
the auth-endpoint / already-retried guard wins first (logout unless already on
"/login", then reject), then `isTokenExpiredError` selects the refresh/queue
path, and everything else is a terminal non-expiry 401 (logout unless on
"/login", then reject). -/
def respond401 (e : JsError) (req : ReqConfig) (currentPath : String) :
    Decision :=
  match e.response with
  | some r =>
    if r.status == 401 then
      if urlIncludes req.url "/auth/login" || urlIncludes req.url "/auth/refresh"
          || req.retry then
        .authTerminal (currentPath != "/login")
      else if isTokenExpiredError e then .refreshPath
      else .notExpiredTerminal (currentPath != "/login")
    else .passThrough
  | none => .passThrough

/-- Embeds the synchronous prefix of the refresh path for one request that
received an expiry-classified 401 (lines 149-173): set `_retry`, queue the
request, then either join the in-flight refresh (0 network refresh calls) or
flip the coordinator to refreshing and become the one caller that performs
the network refresh call (1 call).  Returns the new state, the id of the
queued promise the handler awaits, and the number of refresh calls it
initiated. -/
def handle401Expiry (cfg : ReqConfig) (st : MgrState) : MgrState × Nat × Nat :=
  let cfg := { cfg with retry := true }
  let (st1, pid) := addToQueue cfg st
  if st1.isRefreshing then (st1, pid, 0)
  else ((triggerRefresh st1).1, pid, 1)

/-- N expiry-classified 401 handlers interleaved on the event loop: each
handler's synchronous prefix runs atomically, in list order.  Returns the
final coordinator state, the queued-promise ids, and the total number of
network refresh calls initiated. -/
def runRequests (cfgs : List ReqConfig) (st : MgrState) :
    MgrState × List Nat × Nat :=
  match cfgs with
  | [] => (st, [], 0)
  | c :: rest =>
    let (st1, pid, n1) := handle401Expiry c st
    let (st2, pids, n2) := runRequests rest st1
    (st2, pid :: pids, n1 + n2)

/-! ## The platform `atob` (forgiving base64 decode)

Modelled from the spec: the source calls the browser's `atob` on the token's
middle segment ("a three-part signed structure whose middle segment,
base64-decoded, yields a JSON object"); the browser's forgiving-base64 first
strips ASCII whitespace, strips `=` padding when the length is a multiple of
four, fails on a remainder of one or on characters outside the alphabet, and
discards leftover bits of a trailing 2- or 3-character group. -/

/-- Value of one base64 alphabet character. -/
def b64Val (c : Char) : Option Nat :=
  if 'A' ≤ c ∧ c ≤ 'Z' then some (c.toNat - 65)
  else if 'a' ≤ c ∧ c ≤ 'z' then some (c.toNat - 97 + 26)
  else if '0' ≤ c ∧ c ≤ '9' then some (c.toNat - 48 + 52)
  else if c = '+' then some 62
  else if c = '/' then some 63
  else none

/-- ASCII whitespace stripped by forgiving-base64. -/
def isB64Ws (c : Char) : Bool :=
  c == ' ' || c == '\t' || c == '\n' || c == '\r' || c == '\x0c'

/-- Strip up to two trailing `=` when the length is a multiple of four. -/
def stripPad (cs : List Char) : List Char :=
  if cs.length % 4 == 0 then
    match cs.reverse with
    | '=' :: '=' :: r => r.reverse
    | '=' :: r => r.reverse
    | _ => cs
  else cs

/-- Decode base64 characters in groups of four into bytes; a final group of
one character is an error, final groups of two or three yield one or two
bytes with leftover bits discarded. -/
def decode4 : List Char → Option (List Nat)
  | [] => some []
  | [_] => none
  | [a, b] =>
    match b64Val a, b64Val b with
    | some va, some vb => some [va * 4 + vb / 16]
    | _, _ => none
  | [a, b, c] =>
    match b64Val a, b64Val b, b64Val c with
    | some va, some vb, some vc =>
      some [va * 4 + vb / 16, vb % 16 * 16 + vc / 4]
    | _, _, _ => none
  | a :: b :: c :: d :: rest =>
    match b64Val a, b64Val b, b64Val c, b64Val d, decode4 rest with
    | some va, some vb, some vc, some vd, some bs =>
      some ([va * 4 + vb / 16, vb % 16 * 16 + vc / 4, vc % 4 * 64 + vd] ++ bs)
    | _, _, _, _, _ => none

/-- The platform `atob`: `none` models the `InvalidCharacterError` throw.
The decoded bytes become a binary string (one char per byte). -/
def atob (s : String) : Option String :=
  match decode4 (stripPad (s.toList.filter (fun c => !isB64Ws c))) with
  | some bytes => some (String.mk (bytes.map Char.ofNat))
  | none => none

example : atob "eyJleHAiOjEwNjB9" = some "\x7b\"exp\":1060\x7d" := by decide
example : atob "bad!" = none := by decide

/-! ## The platform `JSON.parse`

Modelled from the spec: the source feeds the `atob` output to the platform's
`JSON.parse` ("base64-decoded, yields a JSON object containing an integer
`exp`").  The grammar below is the JSON grammar: null/true/false, strings
with escapes, numbers with fraction and exponent (as exact rationals), arrays
and objects; later duplicate keys shadow earlier ones as in JS. -/

/-- Exact rational numbers as unnormalized fractions (denominator positive by
construction everywhere below), so that all arithmetic is plain integer
arithmetic and evaluates inside the kernel.  JS numbers are floats, but every
value the claims touch is exactly representable. -/
structure JRat where
  num : Int
  den : Int
deriving DecidableEq

/-- Integer as a fraction. -/
def JRat.ofInt (n : Int) : JRat := ⟨n, 1⟩

/-- Fraction multiplication. -/
def JRat.mul (a b : JRat) : JRat := ⟨a.num * b.num, a.den * b.den⟩

/-- Fraction subtraction. -/
def JRat.sub (a b : JRat) : JRat := ⟨a.num * b.den - b.num * a.den, a.den * b.den⟩

/-- Fraction order (valid since denominators are positive). -/
def JRat.le (a b : JRat) : Prop := a.num * b.den ≤ b.num * a.den

instance (a b : JRat) : Decidable (a.le b) := by
  unfold JRat.le
  infer_instance

inductive Jv where
  | jnull
  | jbool (b : Bool)
  | jnum (q : JRat)
  | jstr (s : String)
  | jarr (l : List Jv)
  | jobj (l : List (String × Jv))

/-- The `\x7b` character (written by code point to keep string literals
free of braces). -/
def lbraceC : Char := Char.ofNat 123

/-- The `\x7d` character. -/
def rbraceC : Char := Char.ofNat 125

/-- JSON insignificant whitespace. -/
def jsonWs (c : Char) : Bool := c == ' ' || c == '\t' || c == '\n' || c == '\r'

/-- Drop leading JSON whitespace. -/
def skipWs : List Char → List Char
  | [] => []
  | c :: cs => if jsonWs c then skipWs cs else c :: cs

/-- Hex digit value. -/
def hexVal (c : Char) : Option Nat :=
  if '0' ≤ c ∧ c ≤ '9' then some (c.toNat - 48)
  else if 'a' ≤ c ∧ c ≤ 'f' then some (c.toNat - 97 + 10)
  else if 'A' ≤ c ∧ c ≤ 'F' then some (c.toNat - 65 + 10)
  else none

/-- Four hex digits of a unicode escape. -/
def parseHex4 : List Char → Option (Nat × List Char)
  | a :: b :: c :: d :: rest =>
    match hexVal a, hexVal b, hexVal c, hexVal d with
    | some x, some y, some z, some w =>
      some (((x * 16 + y) * 16 + z) * 16 + w, rest)
    | _, _, _, _ => none
  | _ => none

/-- Body of a JSON string, after the opening quote, up to the closing one. -/
def parseStrBody : Nat → List Char → Option (List Char × List Char)
  | 0, _ => none
  | _ + 1, [] => none
  | fuel + 1, c :: rest =>
    if c == '"' then some ([], rest)
    else if c == '\\' then
      match rest with
      | [] => none
      | e :: rest2 =>
        if e == 'u' then
          match parseHex4 rest2 with
          | some (n, r3) =>
            match parseStrBody fuel r3 with
            | some (body, r4) => some (Char.ofNat n :: body, r4)
            | none => none
          | none => none
        else
          match
            (if e == '"' then some '"'
             else if e == '\\' then some '\\'
             else if e == '/' then some '/'
             else if e == 'b' then some '\x08'
             else if e == 'f' then some '\x0c'
             else if e == 'n' then some '\n'
             else if e == 'r' then some '\r'
             else if e == 't' then some '\t'
             else none) with
          | some ch =>
            match parseStrBody fuel rest2 with
            | some (body, r3) => some (ch :: body, r3)
            | none => none
          | none => none
    else if c.toNat < 32 then none
    else
      match parseStrBody fuel rest with
      | some (body, r2) => some (c :: body, r2)
      | none => none

/-- Decimal digit value. -/
def digVal (c : Char) : Option Nat :=
  if '0' ≤ c ∧ c ≤ '9' then some (c.toNat - 48) else none

/-- Consume a run of digits, returning value, digit count and the rest. -/
def parseDigitsAcc : List Char → Nat → Nat → Nat × Nat × List Char
  | [], acc, n => (acc, n, [])
  | c :: cs, acc, n =>
    match digVal c with
    | some d => parseDigitsAcc cs (acc * 10 + d) (n + 1)
    | none => (acc, n, c :: cs)

/-- Powers of ten as integers. -/
def pow10 : Nat → Int
  | 0 => 1
  | n + 1 => 10 * pow10 n

/-- Exact rational value of sign, integer part, fraction digits and decimal
exponent. -/
def mkNumVal (neg : Bool) (iv fv fcnt : Nat) (e : Int) : JRat :=
  let den0 : Int := pow10 fcnt
  let num0 : Int := (iv : Int) * den0 + (fv : Int)
  let r : JRat :=
    if 0 ≤ e then ⟨num0 * pow10 e.toNat, den0⟩ else ⟨num0, den0 * pow10 (-e).toNat⟩
  if neg then ⟨-r.num, r.den⟩ else r

/-- JSON number literal (no leading zeros, optional fraction and exponent). -/
def parseJsonNumber (cs : List Char) : Option (JRat × List Char) :=
  let sgn :=
    match cs with
    | c :: r => if c == '-' then (true, r) else (false, cs)
    | [] => (false, ([] : List Char))
  match sgn.2 with
  | [] => none
  | c :: _ =>
    match digVal c with
    | none => none
    | some _ =>
      let ipart := parseDigitsAcc sgn.2 0 0
      if c == '0' && ipart.2.1 != 1 then none
      else
        let fracRes : Option (Nat × Nat × List Char) :=
          match ipart.2.2 with
          | d :: r =>
            if d == '.' then
              let fpart := parseDigitsAcc r 0 0
              if fpart.2.1 == 0 then none else some fpart
            else some (0, 0, ipart.2.2)
          | [] => some (0, 0, [])
        match fracRes with
        | none => none
        | some (fv, fcnt, cs3) =>
          let expRes : Option (Int × List Char) :=
            match cs3 with
            | e :: r =>
              if e == 'e' || e == 'E' then
                let se : Int × List Char :=
                  match r with
                  | s :: r2 =>
                    if s == '+' then (1, r2)
                    else if s == '-' then (-1, r2)
                    else (1, r)
                  | [] => (1, [])
                let epart := parseDigitsAcc se.2 0 0
                if epart.2.1 == 0 then none
                else some (se.1 * (epart.1 : Int), epart.2.2)
              else some (0, cs3)
            | [] => some (0, [])
          match expRes with
          | none => none
          | some (ex, cs4) => some (mkNumVal sgn.1 ipart.1 fv fcnt ex, cs4)

/-- Match a literal keyword tail. -/
def dropLit : List Char → List Char → Option (List Char)
  | [], cs => some cs
  | _ :: _, [] => none
  | l :: ls, c :: cs => if l == c then dropLit ls cs else none

mutual

/-- One JSON value (fuelled recursion; the top-level call supplies ample
fuel, three units per input character). -/
def parseVal : Nat → List Char → Option (Jv × List Char)
  | 0, _ => none
  | fuel + 1, cs =>
    match skipWs cs with
    | [] => none
    | c :: rest =>
      if c == 'n' then
        match dropLit "ull".toList rest with
        | some r => some (Jv.jnull, r)
        | none => none
      else if c == 't' then
        match dropLit "rue".toList rest with
        | some r => some (Jv.jbool true, r)
        | none => none
      else if c == 'f' then
        match dropLit "alse".toList rest with
        | some r => some (Jv.jbool false, r)
        | none => none
      else if c == '"' then
        match parseStrBody (fuel + 1) rest with
        | some (body, r) => some (Jv.jstr (String.mk body), r)
        | none => none
      else if c == lbraceC then parseObjBody fuel rest
      else if c == '[' then parseArrBody fuel rest
      else
        match parseJsonNumber (c :: rest) with
        | some (q, r) => some (Jv.jnum q, r)
        | none => none

/-- Object body after the opening brace. -/
def parseObjBody : Nat → List Char → Option (Jv × List Char)
  | 0, _ => none
  | fuel + 1, cs =>
    match skipWs cs with
    | c :: r =>
      if c == rbraceC then some (Jv.jobj [], r)
      else
        match parseMembers fuel (c :: r) with
        | some (ms, r2) => some (Jv.jobj ms, r2)
        | none => none
    | [] => none

/-- Non-empty member list of an object, including the closing brace. -/
def parseMembers : Nat → List Char → Option (List (String × Jv) × List Char)
  | 0, _ => none
  | fuel + 1, cs =>
    match skipWs cs with
    | c :: r =>
      if c == '"' then
        match parseStrBody (fuel + 1) r with
        | some (key, r2) =>
          match skipWs r2 with
          | c2 :: r3 =>
            if c2 == ':' then
              match parseVal fuel r3 with
              | some (v, r4) =>
                match skipWs r4 with
                | c3 :: r5 =>
                  if c3 == ',' then
                    match parseMembers fuel r5 with
                    | some (ms, r6) => some ((String.mk key, v) :: ms, r6)
                    | none => none
                  else if c3 == rbraceC then some ([(String.mk key, v)], r5)
                  else none
                | [] => none
              | none => none
            else none
          | [] => none
        | none => none
      else none
    | [] => none

/-- Array body after the opening bracket. -/
def parseArrBody : Nat → List Char → Option (Jv × List Char)
  | 0, _ => none
  | fuel + 1, cs =>
    match skipWs cs with
    | c :: r =>
      if c == ']' then some (Jv.jarr [], r)
      else
        match parseElems fuel (c :: r) with
        | some (vs, r2) => some (Jv.jarr vs, r2)
        | none => none
    | [] => none

/-- Non-empty element list of an array, including the closing bracket. -/
def parseElems : Nat → List Char → Option (List Jv × List Char)
  | 0, _ => none
  | fuel + 1, cs =>
    match parseVal fuel cs with
    | some (v, r) =>
      match skipWs r with
      | c :: r2 =>
        if c == ',' then
          match parseElems fuel r2 with
          | some (vs, r3) => some (v :: vs, r3)
          | none => none
        else if c == ']' then some ([v], r2)
        else none
      | [] => none
    | none => none

end

/-- The platform `JSON.parse`: `none` models the `SyntaxError` throw. -/
def jsonParse (s : String) : Option Jv :=
  match parseVal (3 * s.length + 8) s.toList with
  | some (v, rest) =>
    match skipWs rest with
    | [] => some v
    | _ :: _ => none
  | none => none

/-! ## The platform number coercion and `getTimeUntilExpiry`

`getTimeUntilExpiry` (tokenRefresh.js lines 249-268) computes
`JSON.parse(atob(token.split(".")[1])).exp * 1000 - Date.now()` inside a
try/catch that returns 0.  Three platform behaviours decide which branch
runs: property access on `null` throws; `exp * 1000` coerces `exp` with
`ToNumber` (NaN when that fails); and the debug-log line evaluates
`new Date(expiryTime).toISOString()`, which throws exactly when `expiryTime`
is NaN or beyond ±8.64e15 ms — so those cases are caught and return 0. -/

/-- JS whitespace trimmed by `ToNumber` on strings. -/
def jsWsChar (c : Char) : Bool :=
  c == ' ' || c == '\t' || c == '\n' || c == '\r' || c == '\x0b' || c == '\x0c'

/-- Trim JS whitespace from both ends. -/
def trimJs (cs : List Char) : List Char :=
  ((cs.dropWhile jsWsChar).reverse.dropWhile jsWsChar).reverse

/-- JS `ToNumber` on a string: empty (after trimming) is 0, otherwise a
signed decimal literal with optional fraction and exponent; anything else is
NaN (`none`).  Hex/octal/binary literals and `Infinity` are not modelled and
map to `none`. -/
def strToNumber (s : String) : Option JRat :=
  match trimJs s.toList with
  | [] => some (JRat.ofInt 0)
  | c0 :: r0 =>
    let cs1 : Bool × List Char :=
      if c0 == '-' then (true, r0)
      else if c0 == '+' then (false, r0)
      else (false, c0 :: r0)
    let ipart := parseDigitsAcc cs1.2 0 0
    let fracRes : Option (Nat × Nat × List Char) :=
      match ipart.2.2 with
      | d :: r => if d == '.' then some (parseDigitsAcc r 0 0) else some (0, 0, ipart.2.2)
      | [] => some (0, 0, [])
    match fracRes with
    | none => none
    | some (fv, fcnt, cs3) =>
      if ipart.2.1 + fcnt == 0 then none
      else
        let expRes : Option (Int × List Char) :=
          match cs3 with
          | e :: r =>
            if e == 'e' || e == 'E' then
              let se : Int × List Char :=
                match r with
                | s :: r2 =>
                  if s == '+' then (1, r2)
                  else if s == '-' then (-1, r2)
                  else (1, r)
                | [] => (1, [])
              let epart := parseDigitsAcc se.2 0 0
              if epart.2.1 == 0 then none
              else some (se.1 * (epart.1 : Int), epart.2.2)
            else some (0, cs3)
          | [] => some (0, [])
        match expRes with
        | none => none
        | some (ex, cs4) =>
          match cs4 with
          | [] => some (mkNumVal cs1.1 ipart.1 fv fcnt ex)
          | _ :: _ => none

/-- JS `ToNumber` of a parsed JSON value (`none` is NaN): null is 0,
booleans are 0/1, numbers are themselves, strings go through the string
grammar, objects stringify to a non-numeric form (NaN), and arrays coerce
through their joined string: empty is 0, a single element coerces like the
element (null joining to the empty string), several elements contain a comma
and are NaN.  Fuelled for the nested-array recursion. -/
def jsToNumber : Nat → Jv → Option JRat
  | 0, _ => none
  | _ + 1, Jv.jnull => some (JRat.ofInt 0)
  | _ + 1, Jv.jbool b => some (JRat.ofInt (if b then 1 else 0))
  | _ + 1, Jv.jnum q => some q
  | _ + 1, Jv.jstr s => strToNumber s
  | _ + 1, Jv.jobj _ => none
  | _ + 1, Jv.jarr [] => some (JRat.ofInt 0)
  | fuel + 1, Jv.jarr [v] =>
    match v with
    | Jv.jnull => some (JRat.ofInt 0)
    | Jv.jnum q => some q
    | Jv.jstr s => strToNumber s
    | Jv.jarr l => jsToNumber fuel (Jv.jarr l)
    | _ => none
  | _ + 1, Jv.jarr (_ :: _ :: _) => none

/-- JS `String.prototype.split` with a one-character separator. -/
def splitListOn (sep : Char) : List Char → List (List Char)
  | [] => [[]]
  | c :: cs =>
    let r := splitListOn sep cs
    if c == sep then [] :: r
    else
      match r with
      | h :: t => (c :: h) :: t
      | [] => [[c]]

/-- JS `token.split(".")[1]` as an optional segment. -/
def jwtSegment1 (token : String) : Option String :=
  match splitListOn '.' token.toList with
  | _ :: seg :: _ => some (String.mk seg)
  | _ => none

/-- The token's decoded payload: `token.split(".")[1]` fed to `atob` and
`JSON.parse`; `none` collects every throwing path (a missing middle segment
makes JS evaluate `atob("undefined")`, which throws since its length is 9). -/
def jwtPayloadJson (token : String) : Option Jv :=
  match jwtSegment1 token with
  | none => none
  | some seg =>
    match atob seg with
    | none => none
    | some payload => jsonParse payload

/-- Property lookup as built by `JSON.parse`: a later duplicate key shadows
an earlier one. -/
def lookupLast : List (String × Jv) → String → Option Jv
  | [], _ => none
  | p :: rest, k =>
    match lookupLast rest k with
    | some v => some v
    | none => if p.1 == k then some p.2 else none

/-- JS `payload.exp`: reading a property of `null` throws (`none`); on an
object it is the (possibly absent) field; on any other value it is
`undefined` (`some none`). -/
def jsGetExp : Jv → Option (Option Jv)
  | Jv.jnull => none
  | Jv.jobj l => some (lookupLast l "exp")
  | _ => some none

/-- Largest `|t|` (ms) for which `new Date(t).toISOString()` does not throw. -/
def DATE_RANGE_MS : JRat := JRat.ofInt 8640000000000000

/-- Embeds `getTimeUntilExpiry(token)` (lines 249-268) at current time `now`
(ms): decode the payload, read `exp`, coerce and scale to ms; every throwing
path (decode failure, `.exp` of null, NaN or out-of-range expiry reaching
`toISOString` in the debug log) is caught and returns 0. -/
def getTimeUntilExpiry (token : String) (now : Int) : JRat :=
  match jwtPayloadJson token with
  | none => JRat.ofInt 0
  | some v =>
    match jsGetExp v with
    | none => JRat.ofInt 0
    | some prop =>
      match
        (match prop with
         | none => none
         | some jv => jsToNumber (token.length + 2) jv) with
      | none => JRat.ofInt 0
      | some q =>
        let expiryTime := q.mul (JRat.ofInt 1000)
        if (JRat.ofInt (-8640000000000000)).le expiryTime ∧
            expiryTime.le DATE_RANGE_MS then
          expiryTime.sub (JRat.ofInt now)
        else JRat.ofInt 0

/-- The claim's own characterization of a decodable token: the middle
segment base64-decodes to a JSON object whose `exp` field is an integer.
Used to state the claims about expiry decoding against the embedding. -/
def specDecodeIntExp (token : String) : Option Int :=
  match jwtPayloadJson token with
  | some (Jv.jobj l) =>
    match lookupLast l "exp" with
    | some (Jv.jnum q) => if q.den = 1 then some q.num else none
    | _ => none
  | _ => none

example : specDecodeIntExp "h.eyJleHAiOjEwNjB9.s" = some 1060 := by decide
example : getTimeUntilExpiry "h.eyJleHAiOjEwNjB9.s" 1000000 = ⟨60000, 1⟩ := by decide
example : specDecodeIntExp "h.eyJleHAiOiIxMjMifQ==.s" = none := by decide
example : getTimeUntilExpiry "h.eyJleHAiOiIxMjMifQ==.s" 500000 = ⟨-377000, 1⟩ := by decide
example : getTimeUntilExpiry "garbage" 5 = JRat.ofInt 0 := by decide

/-! ## Characterization lemmas for the manager operations -/

/-- The timer `scheduleRefresh` leaves armed, in the shape of the spec: no
timer for a falsy token or when the effective expiry (the `expiresIn`
parameter in ms, or the fixed 15-minute default — the token itself is never
decoded) minus the 2-minute margin is under 30 s; otherwise one timer at that
difference. -/
def schedTimer (token : String) (expiresIn : Option Int) : Option Int :=
  if token = "" then none
  else
    let expiryMs : Int :=
      match expiresIn with
      | some s => if s ≠ 0 then s * 1000 else 900000
      | none => 900000
    if expiryMs - 120000 < 30000 then none else some (expiryMs - 120000)

/-- `scheduleRefresh` only replaces the timer, as described by `schedTimer`
(the `refreshIn ≤ 0` disjunct of the source is subsumed by the 30 s bound). -/
theorem scheduleRefresh_eq (token : String) (expiresIn : Option Int)
    (st : MgrState) :
    scheduleRefresh token expiresIn st =
      { st with refreshTimer := schedTimer token expiresIn } := by
  unfold scheduleRefresh schedTimer TOKEN_EXPIRY_MS REFRESH_BEFORE_EXPIRY_MS
  by_cases ht : token = ""
  · simp [ht]
  · simp only [ht, if_false]
    rcases expiresIn with _ | s
    · norm_num
    · by_cases hs : s = 0
      · simp only [hs]
        norm_num
      · simp only [hs, ne_eq, not_false_eq_true, if_true]
        split_ifs <;> first | rfl | omega

/-- The settlement effects of a successful refresh. -/
def successEffs (tok : String) (st : MgrState) : List Eff :=
  (match st.refreshResolve with
   | some pid => [Eff.resolve pid (RVal.token tok)]
   | none => []) ++
  st.failedQueue.map fun pc =>
    Eff.resolve pc.1 (RVal.cfg
      (if tok ≠ "" then { pc.2 with authHeader := some ("Bearer " ++ tok) }
       else pc.2))

/-- Full characterization of `onRefreshSuccess`. -/
theorem onRefreshSuccess_eq (tok : String) (st : MgrState) :
    onRefreshSuccess tok st =
      ({ isRefreshing := false, refreshPromise := none, refreshResolve := none,
         refreshReject := none, failedQueue := [],
         refreshTimer := schedTimer tok none, nextId := st.nextId },
       successEffs tok st) := by
  have h1 : onRefreshSuccess tok st =
      (scheduleRefresh tok none
        { isRefreshing := false, refreshPromise := none, refreshResolve := none,
          refreshReject := none, failedQueue := [],
          refreshTimer := st.refreshTimer, nextId := st.nextId },
       successEffs tok st) := rfl
  rw [h1, scheduleRefresh_eq]

/-- The settlement effects of a failed refresh. -/
def failureEffs (e : JsError) (st : MgrState) : List Eff :=
  (match st.refreshReject with
   | some pid => [Eff.reject pid e]
   | none => []) ++
  st.failedQueue.map fun pc => Eff.reject pc.1 e

/-- Full characterization of `onRefreshFailure`. -/
theorem onRefreshFailure_eq (e : JsError) (st : MgrState) :
    onRefreshFailure e st =
      ({ isRefreshing := false, refreshPromise := none, refreshResolve := none,
         refreshReject := none, failedQueue := [], refreshTimer := none,
         nextId := st.nextId },
       failureEffs e st) := rfl

/-- Full characterization of `reset`. -/
theorem reset_eq (st : MgrState) :
    reset st =
      ({ isRefreshing := false, refreshPromise := none, refreshResolve := none,
         refreshReject := none, failedQueue := [], refreshTimer := none,
         nextId := st.nextId },
       st.failedQueue.map fun pc => Eff.reject pc.1 logoutQueueError) := rfl

/-- Idle configuration: empty queue, not refreshing, promise fields cleared. -/
def cleanIdle (st : MgrState) : Prop :=
  st.failedQueue = [] ∧ st.isRefreshing = false ∧ st.refreshPromise = none ∧
  st.refreshResolve = none ∧ st.refreshReject = none

/-- C9: after any one of onRefreshSuccess, onRefreshFailure or reset the
coordinator is in the idle configuration: the queue is empty, the refreshing
flag is false and the shared promise with its resolve/reject handles is
cleared, so no refresh cycle leaves a queued request behind. -/
theorem c9_clean_idle (st : MgrState) (tok : String) (e : JsError) :
    cleanIdle (onRefreshSuccess tok st).1 ∧ cleanIdle (onRefreshFailure e st).1 ∧
    cleanIdle (reset st).1 := by
  refine ⟨?_, ?_, ?_⟩ <;>
    simp [onRefreshSuccess_eq, onRefreshFailure_eq, reset_eq, cleanIdle]

/-- C4 counterexample: the token decodes to `exp` 1060 s, so at `now` =
1,000,000 ms its remaining lifetime is 60 s and the claim (remaining minus
the 2-minute margin is under 30 s) demands that no timer be armed; yet
`scheduleRefresh` — which never decodes the token — arms a timer at 780,000
ms (the fixed 15-minute default minus 2 minutes). -/
theorem c4_counterexample :
    getTimeUntilExpiry "h.eyJleHAiOjEwNjB9.s" 1000000 = ⟨60000, 1⟩ ∧
    (60000 : Int) - 120000 < 30000 ∧
    (scheduleRefresh "h.eyJleHAiOjEwNjB9.s" none mgrInit).refreshTimer =
      some 780000 := by
  decide

/-- C4 (amended): `scheduleRefresh` never decodes the token's embedded
expiry.  It always cancels any existing timer and touches nothing else; it
arms no timer when the token is falsy or when the effective expiry — the
`expiresIn` parameter times 1000 when truthy, else the fixed 15-minute
default — minus the 2-minute margin is below 30 seconds; otherwise it arms
exactly one timer firing `triggerRefresh` after that difference. -/
theorem c4_schedule_behavior (token : String) (expiresIn : Option Int)
    (st : MgrState) :
    scheduleRefresh token expiresIn st =
      { st with refreshTimer := schedTimer token expiresIn } :=
  scheduleRefresh_eq token expiresIn st

/-- C5: a refresh cycle that succeeds with a (nonempty) `newToken` resolves
the shared outcome with `newToken`, resolves every queued request with its
config rewritten to `Authorization: Bearer newToken`, clears the queue,
returns the status to idle, and schedules the next proactive refresh (the
13-minute timer arising from the 15-minute default minus the 2-minute
margin). -/
theorem c5_success_fanout (tok : String) (st : MgrState) (pid : Nat)
    (hres : st.refreshResolve = some pid) (htok : tok ≠ "") :
    onRefreshSuccess tok st =
      ({ isRefreshing := false, refreshPromise := none, refreshResolve := none,
         refreshReject := none, failedQueue := [],
         refreshTimer := some 780000, nextId := st.nextId },
       Eff.resolve pid (RVal.token tok) ::
         st.failedQueue.map fun pc =>
           Eff.resolve pc.1
             (RVal.cfg { pc.2 with authHeader := some ("Bearer " ++ tok) })) := by
  rw [onRefreshSuccess_eq]
  simp [successEffs, hres, htok, schedTimer]

/-- C6: a refresh cycle that fails with `e` rejects the shared outcome with
`e`, rejects every queued request with the same `e`, clears the queue,
returns the status to idle and cancels any pending timer, so neither a queued
request nor the triggering request (which awaits its own queued promise) is
left pending. -/
theorem c6_failure_fanout (e : JsError) (st : MgrState) (pid : Nat)
    (hrej : st.refreshReject = some pid) :
    onRefreshFailure e st =
      ({ isRefreshing := false, refreshPromise := none, refreshResolve := none,
         refreshReject := none, failedQueue := [], refreshTimer := none,
         nextId := st.nextId },
       Eff.reject pid e :: st.failedQueue.map fun pc => Eff.reject pc.1 e) := by
  rw [onRefreshFailure_eq]
  simp [failureEffs, hrej]

/-- A sample queued request config. -/
def sampleCfg : ReqConfig :=
  { url := some "/api/trips", authHeader := some "Bearer A", retry := true }

/-- A mid-refresh state: shared promise 0 in flight, request 1 queued. -/
def midRefreshState : MgrState :=
  { isRefreshing := true, refreshPromise := some 0, refreshResolve := some 0,
    refreshReject := some 0, failedQueue := [(1, sampleCfg)],
    refreshTimer := none, nextId := 2 }

/-- C3 counterexample: from a state with shared outcome 0 in flight and
request 1 queued, `reset` settles only the queued promise 1 — the shared
outcome 0 is abandoned unresolved, not rejected — and a later
`onRefreshSuccess` of the abandoned cycle does not leave the state unchanged:
it arms a fresh 780,000 ms proactive timer. -/
theorem c3_counterexample :
    (reset midRefreshState).2 = [Eff.reject 1 logoutQueueError] ∧
    (reset midRefreshState).1.refreshTimer = none ∧
    (onRefreshSuccess "B" (reset midRefreshState).1).2 = [] ∧
    (onRefreshSuccess "B" (reset midRefreshState).1).1.refreshTimer =
      some 780000 := by
  decide

/-- C3 (amended): `reset` cancels the timer, rejects every queued request
with the logout error, and returns to idle, but it abandons the in-flight
shared outcome without rejecting it.  A later `onRefreshFailure` of the
abandoned cycle is a complete no-op; a later `onRefreshSuccess` settles no
promise and leaves the queue and status untouched, but re-arms the proactive
timer (per `schedTimer`, 780,000 ms for a nonempty token). -/
theorem c3_reset_behavior (st : MgrState) (tok : String) (e : JsError) :
    reset st =
      ({ isRefreshing := false, refreshPromise := none, refreshResolve := none,
         refreshReject := none, failedQueue := [], refreshTimer := none,
         nextId := st.nextId },
       st.failedQueue.map fun pc => Eff.reject pc.1 logoutQueueError) ∧
    onRefreshFailure e (reset st).1 = ((reset st).1, []) ∧
    onRefreshSuccess tok (reset st).1 =
      ({ (reset st).1 with refreshTimer := schedTimer tok none }, []) := by
  refine ⟨reset_eq st, ?_, ?_⟩
  · rw [reset_eq]
    rw [onRefreshFailure_eq]
    simp [failureEffs]
  · rw [reset_eq]
    rw [onRefreshSuccess_eq]
    simp [successEffs]

/-- C5 witness: the success fan-out evaluated at the concrete mid-refresh
state with new token "B". -/
theorem c5_success_fanout_witness :
    onRefreshSuccess "B" midRefreshState =
      ({ isRefreshing := false, refreshPromise := none, refreshResolve := none,
         refreshReject := none, failedQueue := [],
         refreshTimer := some 780000, nextId := 2 },
       [Eff.resolve 0 (RVal.token "B"),
        Eff.resolve 1 (RVal.cfg { sampleCfg with authHeader := some "Bearer B" })]) := by
  have h := c5_success_fanout "B" midRefreshState 0 rfl (by decide)
  rw [h]
  rfl

/-- The refresh-failure error used in the C6 witness. -/
def refreshFailErr : JsError :=
  { message := "Request failed with status code 401",
    response := some { status := 401, data := some { error := some "Session expired", message := none } } }

/-- C6 witness: the failure fan-out evaluated at the concrete mid-refresh
state. -/
theorem c6_failure_fanout_witness :
    onRefreshFailure refreshFailErr midRefreshState =
      ({ isRefreshing := false, refreshPromise := none, refreshResolve := none,
         refreshReject := none, failedQueue := [], refreshTimer := none,
         nextId := 2 },
       [Eff.reject 0 refreshFailErr, Eff.reject 1 refreshFailErr]) := by
  have h := c6_failure_fanout refreshFailErr midRefreshState 0 rfl
  rw [h]
  rfl

/-! ## Single-flight machinery -/

/-- One expiry-401 handler always leaves the coordinator refreshing, appends
exactly its own queue entry (with the `_retry` flag set), and initiates a
network refresh call exactly when no refresh was in flight. -/
theorem handle401Expiry_spec (c : ReqConfig) (st : MgrState) :
    (handle401Expiry c st).1.isRefreshing = true ∧
    (handle401Expiry c st).1.failedQueue
      = st.failedQueue ++ [(st.nextId, { c with retry := true })] ∧
    (handle401Expiry c st).2.2 = (if st.isRefreshing then 0 else 1) := by
  unfold handle401Expiry addToQueue
  cases hr : st.isRefreshing with
  | false =>
    cases hp : st.refreshPromise with
    | none => simp [triggerRefresh, hr, hp]
    | some pid => simp [triggerRefresh, hr, hp]
  | true => simp [hr]

/-- Unfolding lemma for `runRequests` on a cons cell. -/
theorem runRequests_cons (c : ReqConfig) (rest : List ReqConfig)
    (st : MgrState) :
    runRequests (c :: rest) st =
      ((runRequests rest (handle401Expiry c st).1).1,
       (handle401Expiry c st).2.1
         :: (runRequests rest (handle401Expiry c st).1).2.1,
       (handle401Expiry c st).2.2
         + (runRequests rest (handle401Expiry c st).1).2.2) := rfl

/-- Handlers arriving while a refresh is already in flight initiate no
network refresh call. -/
theorem runRequests_calls_zero :
    ∀ (cfgs : List ReqConfig) (st : MgrState), st.isRefreshing = true →
      (runRequests cfgs st).2.2 = 0 := by
  intro cfgs
  induction cfgs with
  | nil => intro st _; rfl
  | cons c rest ih =>
    intro st h
    rw [runRequests_cons]
    have h1 := (handle401Expiry_spec c st).1
    have h3 := (handle401Expiry_spec c st).2.2
    simp [h3, h, ih _ h1]

/-- Each handler adds exactly one entry to the queue. -/
theorem runRequests_queue_len :
    ∀ (cfgs : List ReqConfig) (st : MgrState),
      (runRequests cfgs st).1.failedQueue.length
        = st.failedQueue.length + cfgs.length := by
  intro cfgs
  induction cfgs with
  | nil => intro st; simp [runRequests]
  | cons c rest ih =>
    intro st
    rw [runRequests_cons]
    have h2 := (handle401Expiry_spec c st).2.1
    simp only [ih ((handle401Expiry c st).1), h2, List.length_append,
      List.length_cons, List.length_nil]
    omega

/-- Starting from a non-refreshing coordinator, any nonempty batch of
expiry-401 handlers initiates exactly one network refresh call. -/
theorem runRequests_calls (cfgs : List ReqConfig) (st : MgrState)
    (h : st.isRefreshing = false) :
    (runRequests cfgs st).2.2 = if cfgs = [] then 0 else 1 := by
  cases cfgs with
  | nil => rfl
  | cons c rest =>
    rw [runRequests_cons]
    have h1 := (handle401Expiry_spec c st).1
    have h3 := (handle401Expiry_spec c st).2.2
    simp [h3, h, runRequests_calls_zero rest _ h1]

/-- Every queued request is resolved by a successful refresh, with its
Authorization header rewritten to the new bearer token. -/
theorem mem_successEffs (tok : String) (st : MgrState) (htok : tok ≠ "")
    (pc : Nat × ReqConfig) (hpc : pc ∈ st.failedQueue) :
    Eff.resolve pc.1
        (RVal.cfg { pc.2 with authHeader := some ("Bearer " ++ tok) })
      ∈ (onRefreshSuccess tok st).2 := by
  rw [onRefreshSuccess_eq]
  show _ ∈ successEffs tok st
  unfold successEffs
  refine List.mem_append_right _ ?_
  refine List.mem_map.mpr ⟨pc, hpc, ?_⟩
  simp [htok]

/-- Reachable refreshing states always hold a shared promise. -/
theorem refreshing_has_promise {st : MgrState} (h : Reachable st) :
    st.isRefreshing = true → ∃ pid, st.refreshPromise = some pid := by
  induction h with
  | init => intro h0; exact absurd h0 (by decide)
  | @step st' op h ih =>
    cases op with
    | schedule t ei =>
      intro hr
      simp only [applyOp, scheduleRefresh_eq] at hr ⊢
      exact ih hr
    | trigger =>
      intro _
      simp only [applyOp]
      cases hpr : st'.isRefreshing with
      | true =>
        cases hp : st'.refreshPromise with
        | none => simp [triggerRefresh, hpr, hp]
        | some pid => simp [triggerRefresh, hpr, hp]
      | false =>
        cases hp : st'.refreshPromise with
        | none => simp [triggerRefresh, hpr, hp]
        | some pid => simp [triggerRefresh, hpr, hp]
    | success t =>
      intro hr
      simp [applyOp, onRefreshSuccess_eq] at hr
    | failure e =>
      intro hr
      simp [applyOp, onRefreshFailure_eq] at hr
    | enqueue c =>
      intro hr
      simp only [applyOp, addToQueue] at hr ⊢
      exact ih hr
    | doReset =>
      intro hr
      simp [applyOp, reset_eq] at hr

/-- C1: single-flight refresh.  First, on every reachable refreshing state a
call to `triggerRefresh` returns the existing shared outcome and changes
nothing (no new outcome is created).  Second, for any batch of N requests
that each receive an expiry-classified 401 starting from a non-refreshing
coordinator, exactly one network refresh call is initiated, all N requests
are queued, and the success of that one refresh resolves every queued
request with the same new bearer token. -/
theorem c1_single_flight :
    (∀ st : MgrState, Reachable st → st.isRefreshing = true →
       ∃ pid, st.refreshPromise = some pid ∧ triggerRefresh st = (st, pid)) ∧
    (∀ (cfgs : List ReqConfig) (st0 : MgrState) (tok : String),
       st0.isRefreshing = false → tok ≠ "" →
       (runRequests cfgs st0).2.2 = (if cfgs = [] then 0 else 1) ∧
       (runRequests cfgs st0).1.failedQueue.length
         = st0.failedQueue.length + cfgs.length ∧
       ∀ pc ∈ (runRequests cfgs st0).1.failedQueue,
         Eff.resolve pc.1
             (RVal.cfg { pc.2 with authHeader := some ("Bearer " ++ tok) })
           ∈ (onRefreshSuccess tok (runRequests cfgs st0).1).2) := by
  constructor
  · intro st hreach hr
    obtain ⟨pid, hp⟩ := refreshing_has_promise hreach hr
    exact ⟨pid, hp, by simp [triggerRefresh, hr, hp]⟩
  · intro cfgs st0 tok h0 htok
    refine ⟨runRequests_calls cfgs st0 h0, runRequests_queue_len cfgs st0, ?_⟩
    intro pc hpc
    exact mem_successEffs tok _ htok pc hpc

/-- The state reached by one `triggerRefresh` from the fresh manager. -/
def stTrig : MgrState := applyOp Op.trigger mgrInit

/-- Sample request configs for the single-flight scenario. -/
def wCfgA : ReqConfig := { url := some "/a", authHeader := none, retry := false }

/-- Second sample request config. -/
def wCfgB : ReqConfig := { url := some "/b", authHeader := none, retry := false }

/-- C1 witness: joining a concrete reachable refreshing state returns the
existing promise 0, and two concurrent expiry-401 requests from idle initiate
exactly one refresh call. -/
theorem c1_single_flight_witness :
    triggerRefresh stTrig = (stTrig, 0) ∧
    (runRequests [wCfgA, wCfgB] mgrInit).2.2 = 1 := by
  constructor
  · obtain ⟨pid, h1, h2⟩ :=
      c1_single_flight.1 stTrig (Reachable.step Op.trigger Reachable.init) rfl
    have h0 : stTrig.refreshPromise = some 0 := rfl
    rw [h0] at h1
    obtain rfl := Option.some.inj h1
    exact h2
  · have h := (c1_single_flight.2 [wCfgA, wCfgB] mgrInit "B" rfl (by decide)).1
    simpa using h

/-- A 401 whose body signals an invalid (not expired) credential. -/
def c2Error : JsError :=
  { message := "Request failed with status code 401",
    response := some { status := 401,
                       data := some { error := some "Invalid token signature",
                                      message := none } } }

/-- A plain not-yet-retried request to a non-auth endpoint. -/
def c2Req : ReqConfig :=
  { url := some "/api/trips", authHeader := some "Bearer A", retry := false }

/-- C2 counterexample: a 401 whose body says "Invalid token signature" — an
invalid credential, with no mention of expiry — is classified by
`isTokenExpiredError` as refresh-eligible, so the pipeline takes the
refresh/queue path instead of the terminal teardown the claim requires. -/
theorem c2_counterexample :
    optLowerIncludes (dataError c2Error) "invalid" = true ∧
    optLowerIncludes (dataError c2Error) "expired" = false ∧
    isTokenExpiredError c2Error = true ∧
    respond401 c2Error c2Req "/dashboard" = Decision.refreshPath := by
  decide

/-- C2 (amended): on a non-auth-endpoint, not-yet-retried 401, the pipeline
skips refresh and treats the failure as terminal (teardown unless already on
the login page, then propagate) only when neither the body's `error` nor
`message` field contains "expired" or "invalid" (case-insensitive); a 401
whose body contains "invalid" is treated like an expiry and does enter the
refresh path. -/
theorem c2_invalid_handling :
    (∀ (e : JsError) (r : ErrResp) (req : ReqConfig) (path : String),
       e.response = some r → r.status = 401 →
       urlIncludes req.url "/auth/login" = false →
       urlIncludes req.url "/auth/refresh" = false →
       req.retry = false →
       optLowerIncludes (dataError e) "expired" = false →
       optLowerIncludes (dataError e) "invalid" = false →
       optLowerIncludes (dataMessage e) "expired" = false →
       optLowerIncludes (dataMessage e) "invalid" = false →
       respond401 e req path = Decision.notExpiredTerminal (path != "/login")) ∧
    (∀ (e : JsError) (r : ErrResp) (req : ReqConfig) (path : String),
       e.response = some r → r.status = 401 →
       urlIncludes req.url "/auth/login" = false →
       urlIncludes req.url "/auth/refresh" = false →
       req.retry = false →
       optLowerIncludes (dataError e) "invalid" = true →
       respond401 e req path = Decision.refreshPath) := by
  constructor
  · intro e r req path hresp hstat h1 h2 h3 h4 h5 h6 h7
    simp [respond401, hresp, hstat, h1, h2, h3, isTokenExpiredError,
      statusIs401, h4, h5, h6, h7]
  · intro e r req path hresp hstat h1 h2 h3 hinv
    simp [respond401, hresp, hstat, h1, h2, h3, isTokenExpiredError,
      statusIs401, hinv]

/-- A 401 whose body mentions neither "expired" nor "invalid". -/
def w2Err : JsError :=
  { message := "Request failed with status code 401",
    response := some { status := 401,
                       data := some { error := some "Unauthorized",
                                      message := none } } }

/-- C2 witness: both branches of the amended classification at concrete
inputs. -/
theorem c2_invalid_handling_witness :
    respond401 w2Err c2Req "/dashboard" = Decision.notExpiredTerminal true ∧
    respond401 c2Error c2Req "/dashboard" = Decision.refreshPath := by
  constructor
  · have h := c2_invalid_handling.1 w2Err _ c2Req "/dashboard" rfl rfl
      (by decide) (by decide) rfl (by decide) (by decide) (by decide) (by decide)
    rw [h]
    decide
  · exact c2_invalid_handling.2 c2Error _ c2Req "/dashboard" rfl rfl
      (by decide) (by decide) rfl (by decide)

/-- C7 counterexample: a request already retried once receives another 401
while the app is on `/login`: the pipeline classifies it terminally and
propagates it, but does not trigger session teardown (the `loggedOut` flag is
false), contrary to the claim's unconditional teardown. -/
theorem c7_counterexample :
    sampleCfg.retry = true ∧
    respond401 refreshFailErr sampleCfg "/login" = Decision.authTerminal false := by
  decide

/-- C7 (amended): a 401 on a request whose URL is the login or refresh
endpoint, or which was already retried once, never enters the refresh/queue
path: it is classified as a terminal authentication failure, triggers session
teardown unless the app is already on the login page, and the error is
propagated to the caller. -/
theorem c7_no_double_retry (e : JsError) (r : ErrResp) (req : ReqConfig)
    (path : String) (hresp : e.response = some r) (hstat : r.status = 401)
    (hguard : (urlIncludes req.url "/auth/login"
                || urlIncludes req.url "/auth/refresh" || req.retry) = true) :
    respond401 e req path = Decision.authTerminal (path != "/login") := by
  simp [respond401, hresp, hstat, hguard]

/-- C7 witness: a retried request off the login page is terminal with
teardown. -/
theorem c7_no_double_retry_witness :
    respond401 refreshFailErr sampleCfg "/dashboard" = Decision.authTerminal true := by
  have h := c7_no_double_retry refreshFailErr _ sampleCfg "/dashboard" rfl rfl
    (by decide)
  rw [h]
  decide

/-- C10: `isTokenExpiredError` holds only for errors carrying a response with
status exactly 401 whose body's `error` or `message` field contains (after
lowercasing) "expired" or "invalid"; in particular it is false for every
network error without a response and for every non-401 status, so such errors
never enter the refresh path. -/
theorem c10_expiry_predicate :
    (∀ e : JsError, isTokenExpiredError e = true →
       ∃ r, e.response = some r ∧ r.status = 401 ∧
         (optLowerIncludes (dataError e) "expired" = true ∨
          optLowerIncludes (dataError e) "invalid" = true ∨
          optLowerIncludes (dataMessage e) "expired" = true ∨
          optLowerIncludes (dataMessage e) "invalid" = true)) ∧
    (∀ e : JsError, e.response = none → isTokenExpiredError e = false) ∧
    (∀ (e : JsError) (r : ErrResp), e.response = some r → ¬r.status = 401 →
       isTokenExpiredError e = false) := by
  refine ⟨?_, ?_, ?_⟩
  · intro e h
    rw [isTokenExpiredError, Bool.and_eq_true] at h
    obtain ⟨hs, hor⟩ := h
    cases hresp : e.response with
    | none => simp [statusIs401, hresp] at hs
    | some r =>
      refine ⟨r, rfl, ?_, ?_⟩
      · simp [statusIs401, hresp] at hs
        exact hs
      · have hor2 := hor
        simp only [Bool.or_eq_true] at hor2
        tauto
  · intro e h
    simp [isTokenExpiredError, statusIs401, h]
  · intro e r hresp hst
    simp [isTokenExpiredError, statusIs401, hresp, hst]

/-- A response-less network error. -/
def netErr : JsError := { message := "Network Error", response := none }

/-- A 500 whose body even mentions "expired". -/
def err500 : JsError :=
  { message := "Request failed with status code 500",
    response := some { status := 500,
                       data := some { error := some "Token expired",
                                      message := none } } }

/-- C10 witness: the predicate is false on a network error and on a non-401
status. -/
theorem c10_expiry_predicate_witness :
    isTokenExpiredError netErr = false ∧ isTokenExpiredError err500 = false :=
  ⟨c10_expiry_predicate.2.1 netErr rfl,
   c10_expiry_predicate.2.2 err500 _ rfl (by decide)⟩

/-- `jsToNumber` on a plain JSON number is the number itself. -/
theorem jsToNumber_jnum2 (m : Nat) (q : JRat) :
    jsToNumber (m + 2) (Jv.jnum q) = some q := rfl

/-- C8 counterexample: the token whose payload is the object with `exp` bound
to the STRING "123" does not decode to an object with an integer `exp`, so
the claim demands the result 0; yet `getTimeUntilExpiry` returns
123000 − 500000 = −377000, because JS `exp * 1000` coerces the numeric
string. -/
theorem c8_counterexample :
    specDecodeIntExp "h.eyJleHAiOiIxMjMifQ==.s" = none ∧
    getTimeUntilExpiry "h.eyJleHAiOiIxMjMifQ==.s" 500000 = ⟨-377000, 1⟩ ∧
    getTimeUntilExpiry "h.eyJleHAiOiIxMjMifQ==.s" 500000 ≠ JRat.ofInt 0 := by
  decide

/-- C8 (amended): for every token whose middle segment base64-decodes to a
JSON object with an integer `exp` whose millisecond value fits the
representable Date range, `getTimeUntilExpiry` returns `exp * 1000 - now`;
and it returns 0 whenever the decode pipeline itself throws (missing middle
segment, invalid base64, or invalid JSON).  For a number-coercible but
non-integer `exp` (e.g. a numeric string) it returns the coerced value
scaled, not 0. -/
theorem c8_decode_behavior :
    (∀ (token : String) (now e : Int),
       specDecodeIntExp token = some e →
       -8640000000000000 ≤ e * 1000 → e * 1000 ≤ 8640000000000000 →
       getTimeUntilExpiry token now = ⟨e * 1000 - now, 1⟩) ∧
    (∀ (token : String) (now : Int),
       jwtPayloadJson token = none → getTimeUntilExpiry token now = JRat.ofInt 0) := by
  constructor
  · intro token now e hdec hlo hhi
    unfold specDecodeIntExp at hdec
    cases hpj : jwtPayloadJson token with
    | none => rw [hpj] at hdec; simp at hdec
    | some v =>
      rw [hpj] at hdec
      cases v with
      | jnull => simp at hdec
      | jbool b => simp at hdec
      | jnum q => simp at hdec
      | jstr s => simp at hdec
      | jarr l2 => simp at hdec
      | jobj l =>
        have hdec2 :
            (match lookupLast l "exp" with
             | some (Jv.jnum q) => if q.den = 1 then some q.num else none
             | _ => none) = some e := hdec
        cases hlk : lookupLast l "exp" with
        | none => rw [hlk] at hdec2; simp at hdec2
        | some jv =>
          rw [hlk] at hdec2
          cases jv with
          | jnull => simp at hdec2
          | jbool b => simp at hdec2
          | jstr s => simp at hdec2
          | jarr l2 => simp at hdec2
          | jobj l2 => simp at hdec2
          | jnum q =>
            have hdec3 : (if q.den = 1 then some q.num else none) = some e :=
              hdec2
            by_cases hden : q.den = 1
            · have hnum : q.num = e := by
                rw [if_pos hden] at hdec3
                exact Option.some.inj hdec3
              have hcond :
                  (JRat.ofInt (-8640000000000000)).le (q.mul (JRat.ofInt 1000)) ∧
                  (q.mul (JRat.ofInt 1000)).le DATE_RANGE_MS := by
                simp only [JRat.le, JRat.mul, JRat.ofInt, DATE_RANGE_MS,
                  hden, hnum]
                constructor <;> omega
              simp only [getTimeUntilExpiry, hpj, jsGetExp, hlk,
                jsToNumber_jnum2]
              rw [if_pos hcond]
              simp only [JRat.sub, JRat.mul, JRat.ofInt, hden, hnum,
                JRat.mk.injEq]
              constructor <;> ring
            · rw [if_neg hden] at hdec3
              simp at hdec3
  · intro token now h
    unfold getTimeUntilExpiry
    rw [h]

/-- C8 witness: a token with integer `exp` 900 at `now` = 100000 yields
800000 ms, and an undecodable token yields 0. -/
theorem c8_decode_behavior_witness :
    specDecodeIntExp "h.eyJleHAiOjkwMH0=.s" = some 900 ∧
    getTimeUntilExpiry "h.eyJleHAiOjkwMH0=.s" 100000 = ⟨800000, 1⟩ ∧
    jwtPayloadJson "garbage" = none ∧
    getTimeUntilExpiry "garbage" 7 = JRat.ofInt 0 := by
  refine ⟨by decide, ?_, rfl, c8_decode_behavior.2 "garbage" 7 rfl⟩
  have h := c8_decode_behavior.1 "h.eyJleHAiOjkwMH0=.s" 100000 900
    (by decide) (by decide) (by decide)
  rw [h]
  decide
